import Mathlib

set_option maxRecDepth 16384

/-!
Verification development for the image-processing Cloud Function repository
(`src/index.js`).  The file embeds the two units the claims are about:

* `makeFirestoreCompatible` (src/index.js lines 20-40): the metadata
  normalizer, a recursive walk over a JavaScript value;
* `processImage` (src/index.js lines 42-137): the event handler, embedded as
  a deterministic driver over an environment of collaborator outcomes that
  records the trace of collaborator calls, the temp files remaining after the
  run, and the number of `exiftool.end()` invocations.
-/

/-! ## JavaScript values

`JSValue` models the JavaScript runtime values `makeFirestoreCompatible` can
encounter.  `null` stands for both `null` and `undefined` (both are falsy and
not of `typeof === 'object'` truthiness, so both are copied verbatim by the
function's `else` branch).  `num` uses `Int`; the function never computes
with numbers, it only copies them.  `buffer` is a Node `Buffer` holding a
byte list (each entry < 256).  `object o fields` is any other object:
`o = some s` means the object has a callable `toString` returning `s`
(every ordinary object does, with default result `"[object Object]"`;
dates and the exiftool date classes return their custom text); `o = none`
means no callable `toString` (a null-prototype object, or an object whose
`toString` property is not a function).  Arrays are a special case of
`object (some s)` (their inherited `toString` joins the elements).
-/
inductive JSValue : Type where
  | null : JSValue
  | bool : Bool → JSValue
  | num : Int → JSValue
  | str : String → JSValue
  | buffer : List Nat → JSValue
  | object : Option String → List (String × JSValue) → JSValue

/-! ## Node `Buffer#toString` (UTF-8) and base64

`buf.toString()` with no argument decodes the bytes as UTF-8, replacing
malformed sequences with U+FFFD; `buf.toString('base64')` encodes the bytes
in standard base64 with padding.  Both are embedded executably so concrete
runs can be evaluated.
-/

def utf8Repl : Char := Char.ofNat 0xFFFD

/-- Classify a byte in lead position: either emit a character immediately
(ASCII, or a replacement for an invalid lead byte), or start a multi-byte
sequence, returning (emit, continuation bytes needed, value accumulator,
minimum code point for the sequence length). -/
def utf8Lead (b : Nat) : Option Char × Nat × Nat × Nat :=
  if b < 0x80 then (some (Char.ofNat b), 0, 0, 0)
  else if 0xC2 ≤ b && b ≤ 0xDF then (none, 1, b % 32, 0x80)
  else if 0xE0 ≤ b && b ≤ 0xEF then (none, 2, b % 16, 0x800)
  else if 0xF0 ≤ b && b ≤ 0xF4 then (none, 3, b % 8, 0x10000)
  else (some utf8Repl, 0, 0, 0)

/-- Finish a multi-byte sequence: reject overlong encodings, surrogates and
out-of-range values with a replacement character. -/
def utf8Finish (acc minv : Nat) : Char :=
  if minv ≤ acc && acc ≤ 0x10FFFF && !(0xD800 ≤ acc && acc ≤ 0xDFFF) then
    Char.ofNat acc
  else utf8Repl

/-- UTF-8 decoding loop: the extra arguments are the number of continuation
bytes still expected, the accumulated value, and the minimum code point for
the current sequence. -/
def utf8DecodeAux : List Nat → Nat → Nat → Nat → List Char
  | [], 0, _, _ => []
  | [], _ + 1, _, _ => [utf8Repl]
  | b :: rest, 0, _, _ =>
      match utf8Lead b with
      | (some c, _, _, _) => c :: utf8DecodeAux rest 0 0 0
      | (none, n, a, m) => utf8DecodeAux rest n a m
  | b :: rest, n + 1, acc, minv =>
      if 0x80 ≤ b && b ≤ 0xBF then
        let a2 := acc * 64 + b % 64
        match n with
        | 0 => utf8Finish a2 minv :: utf8DecodeAux rest 0 0 0
        | n' + 1 => utf8DecodeAux rest (n' + 1) a2 minv
      else
        -- invalid continuation byte: emit a replacement and reclassify the
        -- byte as a fresh lead
        match utf8Lead b with
        | (some c, _, _, _) => utf8Repl :: c :: utf8DecodeAux rest 0 0 0
        | (none, n2, a, m) => utf8Repl :: utf8DecodeAux rest n2 a m

/-- `Buffer.prototype.toString` with no argument: UTF-8 decoding. -/
def bufferToStringUtf8 (bs : List Nat) : String :=
  String.mk (utf8DecodeAux bs 0 0 0)

def base64Alphabet : List Char :=
  "ABCDEFGHIJKLMNOPQRSTUVWXYZabcdefghijklmnopqrstuvwxyz0123456789+/".toList

def base64Digit (n : Nat) : Char := base64Alphabet.getD n 'A'

/-- Standard base64 encoding of a byte list, with `=` padding: the
behaviour of `buf.toString('base64')`. -/
def base64EncodeAux : List Nat → List Char
  | [] => []
  | [a] => [base64Digit (a / 4), base64Digit (a % 4 * 16), '=', '=']
  | [a, b] =>
      [base64Digit (a / 4), base64Digit (a % 4 * 16 + b / 16),
       base64Digit (b % 16 * 4), '=']
  | a :: b :: c :: rest =>
      base64Digit (a / 4) :: base64Digit (a % 4 * 16 + b / 16) ::
      base64Digit (b % 16 * 4 + c / 64) :: base64Digit (c % 64) ::
      base64EncodeAux rest

def base64Encode (bs : List Nat) : String := String.mk (base64EncodeAux bs)

/-! ## The normalizer `makeFirestoreCompatible` (src/index.js lines 20-40)

The source iterates `for (const key in data)` and dispatches on each member
value `data[key]`:

1. `data[key] && typeof data[key] === 'object'` selects truthy objects
   (Buffers included); primitives, `null` and `undefined` fall through to
   the verbatim-copy branch.
2. `typeof data[key].toString === 'function'` then selects any object with
   a callable `toString` and replaces it with `data[key].toString()`.
   Every ordinary object (and every `Buffer`) inherits a callable
   `toString`, so a Buffer is UTF-8 decoded here and the following two
   branches are reachable only for objects without a callable `toString`.
3. `Buffer.isBuffer(data[key])` would base64-encode a Buffer, but a value
   reaching this test is an object without a callable `toString` and hence
   never a Buffer: the branch is dead code in the source and accordingly
   has no image in the embedding.
4. Otherwise the member is normalized recursively; the recursive result is
   a fresh object literal `{}`, i.e. an object whose `toString` is the
   default one returning `"[object Object]"`.

`makeFirestoreCompatible` embeds the whole function on a field list (the
function is only ever applied to objects: the top-level exiftool output and,
recursively, members without a callable `toString`); `normalizeEntry`
embeds the dispatch on one member value.
-/

def objectDefaultToString : String := "[object Object]"

mutual

def makeFirestoreCompatible : List (String × JSValue) → List (String × JSValue)
  | [] => []
  | (k, v) :: rest => (k, normalizeEntry v) :: makeFirestoreCompatible rest

def normalizeEntry : JSValue → JSValue
  | .buffer bs => .str (bufferToStringUtf8 bs)
  | .object (some s) _ => .str s
  | .object none fields =>
      .object (some objectDefaultToString) (makeFirestoreCompatible fields)
  | .null => .null
  | .bool b => .bool b
  | .num n => .num n
  | .str s => .str s

end

/-! ## Structural measures and shapes -/

mutual

/-- Nesting depth of a value: primitives and buffers have depth 0, an object
is one deeper than its deepest member. -/
def depthOf : JSValue → Nat
  | .object _ fields => 1 + depthOfFields fields
  | _ => 0

def depthOfFields : List (String × JSValue) → Nat
  | [] => 0
  | (_, v) :: rest => max (depthOf v) (depthOfFields rest)

end

mutual

/-- Every key occurring in a value, nested objects included (document order). -/
def deepKeys : JSValue → List String
  | .object _ fields => deepKeysFields fields
  | _ => []

def deepKeysFields : List (String × JSValue) → List String
  | [] => []
  | (k, v) :: rest => k :: (deepKeys v ++ deepKeysFields rest)

end

mutual

/-- Modelled from the spec: the spec's `NormalizedValue` shape — primitives
(string/number/boolean/null), base64 text (a plain string), and string-keyed
mappings of normalized values.  Buffers are not normalized. -/
def isNormalizedValue : JSValue → Bool
  | .null => true
  | .bool _ => true
  | .num _ => true
  | .str _ => true
  | .buffer _ => false
  | .object _ fields => isNormalizedFields fields

def isNormalizedFields : List (String × JSValue) → Bool
  | [] => true
  | (_, v) :: rest => isNormalizedValue v && isNormalizedFields rest

end

/-- A member value the normalizer copies verbatim: primitives and strings
(the falsy / non-object branch of the dispatch). -/
def isPassThrough : JSValue → Bool
  | .null => true
  | .bool _ => true
  | .num _ => true
  | .str _ => true
  | _ => false

/-- A mapping nested `n` levels deep built from objects without a callable
`toString` (the only objects on which the source's recursive branch fires),
ending in a string leaf. -/
def deepNP : Nat → JSValue
  | 0 => .str "x"
  | n + 1 => .object none [("k", deepNP n)]

/-- What normalization produces on `deepNP`: the same spine with each level
replaced by a fresh plain object (default `toString`). -/
def deepNPOut : Nat → JSValue
  | 0 => .str "x"
  | n + 1 => .object (some objectDefaultToString) [("k", deepNPOut n)]

theorem normalizeEntry_deepNP (n : Nat) : normalizeEntry (deepNP n) = deepNPOut n := by
  induction n with
  | zero => rfl
  | succ n ih =>
      simp [deepNP, deepNPOut, normalizeEntry, makeFirestoreCompatible, ih]

theorem depthOf_deepNP (n : Nat) : depthOf (deepNP n) = n := by
  induction n with
  | zero => rfl
  | succ n ih =>
      simp [deepNP, depthOf, depthOfFields, ih]
      omega

/-! ## The handler `processImage` (src/index.js lines 42-137)

The handler is embedded as a deterministic driver.  An `Env` is an oracle
for the collaborators: whether the `image_logs` query finds a record for a
given file name (`recorded`), and whether each fallible collaborator call
succeeds (the remaining flags; the source treats a collaborator failure as a
thrown promise rejection).  The driver returns the outcome, the ordered
trace of collaborator calls, the temp files of this invocation that remain
after it finishes, and how many times `exiftool.end()` ran.

Within one invocation the only files the handler creates are the three
`/tmp` paths derived from the file name's basename, so the local filesystem
is tracked as three booleans (temp download, thumbnail, processed copy);
`fs.existsSync` on one of the three paths reads the corresponding boolean.
Payload values (image bytes, metadata contents) are irrelevant to every
claim about the handler and are elided from the trace.
-/

def SOURCE_BUCKET : String := "image-upload-bucket-dm01"

def THUMBNAIL_BUCKET : String := "thumbnail-bucket-dm01"

def PROCESSED_BUCKET : String := "processed-images-bucket-dm01"

/-- The trigger event.  The source reads only `event.name` (`file` is an
alias of `event`, so `file.name || event.name` is `event.name`); `none`
models an absent property, `some ""` an empty one. -/
structure Event where
  name : Option String
  deriving DecidableEq

/-- `fileName` is falsy — and the handler throws — iff the property is
absent or the empty string. -/
def fileNameOf (e : Event) : Option String :=
  match e.name with
  | some s => if s = "" then none else some s
  | none => none

/-- Collaborator oracle for one invocation. -/
structure Env where
  recorded : String → Bool
  queryOk : Bool
  downloadOk : Bool
  metadataOk : Bool
  resizeOk : Bool
  exifReadOk : Bool
  thumbUploadOk : Bool
  toFormatOk : Bool
  processedUploadOk : Bool
  insertOk : Bool

/-- One collaborator call, in source order of its arguments. -/
inductive Call where
  | queryImageLogs : String → Call
  | download : String → String → String → Call
  | sharpMetadata : String → Call
  | sharpResize : String → Nat → Nat → String → Call
  | exifRead : String → Call
  | upload : String → String → String → Call
  | sharpToFormat : String → String → String → Call
  | addImageLog : String → Call
  | unlink : String → Call
  | exifEnd : Call
  deriving DecidableEq

/-- Which collaborator call failed, for an invocation ending in a thrown
(propagated) error. -/
inductive ErrStage where
  | queryFailed
  | downloadFailed
  | metadataFailed
  | resizeFailed
  | exifReadFailed
  | thumbUploadFailed
  | toFormatFailed
  | processedUploadFailed
  | insertFailed
  deriving DecidableEq

/-- Invocation outcome, in the spec's taxonomy: `invalidEvent` is the
line-50 throw, `skipped` the line-61 return, `rejected` the line-84 return,
`processed` the normal completion, `errored s` a propagated error. -/
inductive Outcome where
  | invalidEvent
  | skipped
  | rejected
  | processed
  | errored : ErrStage → Outcome
  deriving DecidableEq

/-- Collect the characters after the last `/` seen so far. -/
def lastSegmentAux : List Char → List Char → List Char
  | [], acc => acc
  | c :: rest, acc =>
      if c = '/' then lastSegmentAux rest [] else lastSegmentAux rest (acc ++ [c])

/-- `fileName.split('/').pop()` — the basename is the last `/`-separated
segment (empty when the name ends in `/`). -/
def basenameOf (fn : String) : String := String.mk (lastSegmentAux fn.data [])

def tempFilePathOf (fn : String) : String := "/tmp/" ++ basenameOf fn

def processedImagePathOf (fn : String) : String := "/tmp/processed-" ++ basenameOf fn

def thumbnailPathOf (fn : String) : String := "/tmp/thumbnail-" ++ basenameOf fn

def thumbnailDestOf (fn : String) : String := "thumbnail-" ++ basenameOf fn

def processedDestOf (fn : String) : String := "processed-" ++ basenameOf fn

/-- `fileName.startsWith('/') ? fileName.slice(1) : fileName`. -/
def normalizedFilePathOf (fn : String) : String :=
  match fn.data with
  | '/' :: rest => String.mk rest
  | _ => fn

/-- `fileName.match(/\.(jpg|jpeg|png|gif)$/i)`: a case-insensitive suffix
test against the four accepted extensions (the regex's `i` flag is ASCII
case folding on these patterns, i.e. lower-casing before comparing). -/
def extMatches (fn : String) : Bool :=
  let l := fn.data.map Char.toLower
  List.isSuffixOf ".jpg".data l || List.isSuffixOf ".jpeg".data l ||
  List.isSuffixOf ".png".data l || List.isSuffixOf ".gif".data l

/-- Result of the `try` block body: outcome, collaborator calls made inside
the block, and which of the three temp files exist when the block exits. -/
structure TryResult where
  outcome : Outcome
  calls : List Call
  tempCreated : Bool
  thumbCreated : Bool
  processedCreated : Bool
  deriving DecidableEq

/-- The `try` block body (src/index.js lines 72-127), step by step:
download, extension gate, `sharp` probe, thumbnail resize, exiftool read,
thumbnail upload, jpeg reformat, processed upload, Firestore insert.  A
failing step adds its call to the trace and ends the block with the thrown
error; the extension gate returns without error. -/
def runTry (env : Env) (fn : String) : TryResult :=
  let dl := Call.download SOURCE_BUCKET (normalizedFilePathOf fn) (tempFilePathOf fn)
  if env.downloadOk then
    if extMatches fn then
      let pr := Call.sharpMetadata (tempFilePathOf fn)
      if env.metadataOk then
        let rz := Call.sharpResize (tempFilePathOf fn) 200 200 (thumbnailPathOf fn)
        if env.resizeOk then
          let ex := Call.exifRead (tempFilePathOf fn)
          if env.exifReadOk then
            let u1 := Call.upload THUMBNAIL_BUCKET (thumbnailPathOf fn) (thumbnailDestOf fn)
            if env.thumbUploadOk then
              let rf := Call.sharpToFormat (tempFilePathOf fn) "jpeg" (processedImagePathOf fn)
              if env.toFormatOk then
                let u2 := Call.upload PROCESSED_BUCKET (processedImagePathOf fn) (processedDestOf fn)
                if env.processedUploadOk then
                  let ins := Call.addImageLog fn
                  if env.insertOk then
                    ⟨.processed, [dl, pr, rz, ex, u1, rf, u2, ins], true, true, true⟩
                  else
                    ⟨.errored .insertFailed, [dl, pr, rz, ex, u1, rf, u2, ins], true, true, true⟩
                else
                  ⟨.errored .processedUploadFailed, [dl, pr, rz, ex, u1, rf, u2], true, true, true⟩
              else
                ⟨.errored .toFormatFailed, [dl, pr, rz, ex, u1, rf], true, true, false⟩
            else
              ⟨.errored .thumbUploadFailed, [dl, pr, rz, ex, u1], true, true, false⟩
          else
            ⟨.errored .exifReadFailed, [dl, pr, rz, ex], true, true, false⟩
        else
          ⟨.errored .resizeFailed, [dl, pr, rz], true, false, false⟩
      else
        ⟨.errored .metadataFailed, [dl, pr], true, false, false⟩
    else
      ⟨.rejected, [dl], true, false, false⟩
  else
    ⟨.errored .downloadFailed, [dl], false, false, false⟩

/-- One `finally`-block statement, `if (fs.existsSync(p)) fs.unlinkSync(p)`:
returns the emitted unlink call (if any) and whether the file still exists
afterwards. -/
def cleanupStep (exists_ : Bool) (p : String) : List Call × Bool :=
  if exists_ then ([Call.unlink p], false) else ([], exists_)

/-- The temp files of the invocation that remain, given the existence flag
of each of the three paths. -/
def remainingPaths (t th pr : Bool) (fn : String) : List String :=
  (if t then [tempFilePathOf fn] else []) ++
  (if th then [thumbnailPathOf fn] else []) ++
  (if pr then [processedImagePathOf fn] else [])

/-- Overall result of one invocation. -/
structure RunResult where
  outcome : Outcome
  calls : List Call
  tempRemaining : List String
  exifEndCount : Nat
  deriving DecidableEq

/-- The `finally` block (src/index.js lines 128-136) appended to a finished
`try` body: unlink each of the three temp paths that exists (in source
order: temp download, thumbnail, processed copy), then `exiftool.end()`. -/
def finishRun (fn : String) (t : TryResult) : RunResult :=
  let c1 := cleanupStep t.tempCreated (tempFilePathOf fn)
  let c2 := cleanupStep t.thumbCreated (thumbnailPathOf fn)
  let c3 := cleanupStep t.processedCreated (processedImagePathOf fn)
  ⟨t.outcome,
   Call.queryImageLogs fn :: (t.calls ++ c1.1 ++ c2.1 ++ c3.1 ++ [Call.exifEnd]),
   remainingPaths c1.2 c2.2 c3.2 fn,
   1⟩

/-- The handler (src/index.js lines 42-137).  Before the `try` block: the
falsy-name throw (line 50), the idempotency query (lines 54-57, which can
itself fail, propagating before any cleanup exists), and the early `return`
for an already-recorded name (line 61).  Only then does the `try`/`finally`
pair run. -/
def processImage (env : Env) (e : Event) : RunResult :=
  match fileNameOf e with
  | none => ⟨.invalidEvent, [], [], 0⟩
  | some fn =>
      if env.queryOk then
        if env.recorded fn then
          ⟨.skipped, [Call.queryImageLogs fn], [], 0⟩
        else
          finishRun fn (runTry env fn)
      else
        ⟨.errored .queryFailed, [Call.queryImageLogs fn], [], 0⟩

/-- The invocation reaches the `try` block (and hence its `finally`): the
name is present and non-empty, the idempotency query succeeds, and the name
is not already recorded. -/
def entersProcessing (env : Env) (e : Event) : Bool :=
  match fileNameOf e with
  | none => false
  | some fn => env.queryOk && !env.recorded fn

/-- Destinations of the upload calls of a trace, in order. -/
def uploadDestinations (cs : List Call) : List String :=
  cs.filterMap fun c =>
    match c with
    | .upload _ _ d => some d
    | _ => none

/-- `true` iff every `addImageLog` call in the trace occurs after at least
two `upload` calls (the counter argument counts uploads already seen). -/
def insertAfterTwoUploads : List Call → Nat → Bool
  | [], _ => true
  | c :: rest, u =>
      match c with
      | .upload _ _ _ => insertAfterTwoUploads rest (u + 1)
      | .addImageLog _ => decide (2 ≤ u) && insertAfterTwoUploads rest u
      | _ => insertAfterTwoUploads rest u

/-- An environment in which every collaborator call succeeds and no name is
recorded yet. -/
def envAllOk : Env :=
  ⟨fun _ => false, true, true, true, true, true, true, true, true, true⟩

/-! ## Normalizer lemmas -/

mutual

theorem depthOf_normalizeEntry_le : ∀ v : JSValue, depthOf (normalizeEntry v) ≤ depthOf v
  | .null => by simp [normalizeEntry, depthOf]
  | .bool _ => by simp [normalizeEntry, depthOf]
  | .num _ => by simp [normalizeEntry, depthOf]
  | .str _ => by simp [normalizeEntry, depthOf]
  | .buffer _ => by simp [normalizeEntry, depthOf]
  | .object (some _) _ => by simp [normalizeEntry, depthOf]
  | .object none fs => by
      simp only [normalizeEntry, depthOf]
      exact Nat.add_le_add_left (depthOfFields_makeFirestoreCompatible_le fs) 1

theorem depthOfFields_makeFirestoreCompatible_le :
    ∀ fs : List (String × JSValue),
      depthOfFields (makeFirestoreCompatible fs) ≤ depthOfFields fs
  | [] => by simp [makeFirestoreCompatible, depthOfFields]
  | (_, v) :: rest => by
      simp only [makeFirestoreCompatible, depthOfFields]
      exact max_le_max (depthOf_normalizeEntry_le v)
        (depthOfFields_makeFirestoreCompatible_le rest)

end

/-! ## Claim C1 — depth ceiling -/

/-- C1, counterexample.  The claim states that an input nested deeper than
the fixed ceiling (32) makes normalization fail with
`NormalizationDepthExceeded`.  The source function has no depth parameter,
no ceiling and no failure path of any kind (its embedding is a total
function into `JSValue`): on a mapping nested 33 levels deep it simply
recurses to the bottom and returns the fully rebuilt mapping.  This theorem
evaluates that input: the result is an ordinary value, not an error. -/
theorem deep_input_normalizes_without_depth_error :
    32 < depthOf (deepNP 33) ∧ normalizeEntry (deepNP 33) = deepNPOut 33 :=
  ⟨by decide, by rfl⟩

/-- C1, amended.  The normalizer has no depth ceiling and cannot fail: it is
a total function, and its recursion is bounded by the input's structure —
the output is never deeper than the input — so no finite acyclic input makes
it recurse unboundedly; an input nested deeper than 32 is normalized
successfully (to the fully rebuilt mapping) instead of being rejected. -/
theorem makeFirestoreCompatible_no_depth_ceiling :
    (∀ v : JSValue, depthOf (normalizeEntry v) ≤ depthOf v) ∧
    ∀ n : Nat, 32 < n →
      depthOf (deepNP n) = n ∧ normalizeEntry (deepNP n) = deepNPOut n :=
  ⟨depthOf_normalizeEntry_le,
   fun n _ => ⟨depthOf_deepNP n, normalizeEntry_deepNP n⟩⟩

/-- C1, witness: the amended theorem applied at the concrete depth 40. -/
theorem makeFirestoreCompatible_no_depth_ceiling_witness :
    32 < 40 ∧ (depthOf (deepNP 40) = 40 ∧ normalizeEntry (deepNP 40) = deepNPOut 40) :=
  ⟨by decide, makeFirestoreCompatible_no_depth_ceiling.2 40 (by decide)⟩

/-! ## Claim C2 — recursive walk and key preservation -/

/-- C2, evaluation at the failing input.  The claim states that a composite
member value is walked key-by-key and normalized recursively, with every
key of the input — keys of nested mappings included — preserved.  On the
input `{ a: { b: 1 } }` (the nested value an ordinary object, whose
inherited `toString` returns `"[object Object]"`), the source's
`typeof data[key].toString === 'function'` test catches the nested mapping
and replaces it wholesale with the string `"[object Object]"`: the
recursion branch (line 32, commented «Recursively process nested objects»)
never runs for ordinary objects, and the key `b` is lost. -/
theorem nested_object_stringified_not_recursed :
    makeFirestoreCompatible
        [("a", .object (some objectDefaultToString) [("b", .num 1)])] =
      [("a", .str objectDefaultToString)] ∧
    deepKeysFields [("a", .object (some objectDefaultToString) [("b", .num 1)])] =
      ["a", "b"] ∧
    deepKeysFields (makeFirestoreCompatible
        [("a", .object (some objectDefaultToString) [("b", .num 1)])]) = ["a"] :=
  ⟨rfl, rfl, rfl⟩

/-! ## Claim C3 — binary to base64 -/

/-- C3, evaluation at the failing input.  The claim states a Buffer member
is converted to base64 that decodes back to the original bytes.  In the
source, every Buffer has a callable `toString`, so the first branch fires
and converts the bytes with UTF-8 `toString()`; the base64 branch
(lines 27-29, commented «Convert binary fields (e.g., Hash) to base64
strings») is unreachable.  On `{ ThumbnailImage: Buffer [104, 105] }` the
result is the UTF-8 text `"hi"`, not the base64 text `"aGk="`. -/
theorem buffer_member_utf8_not_base64 :
    makeFirestoreCompatible [("ThumbnailImage", .buffer [104, 105])] =
      [("ThumbnailImage", .str "hi")] ∧
    base64Encode [104, 105] = "aGk=" ∧ ("hi" : String) ≠ "aGk=" :=
  ⟨rfl, rfl, by decide⟩

/-! ## Claim C4 — idempotence of normalization -/

/-- C4, counterexample.  The claim states normalization is a no-op on any
input already in normalized form.  The input `{ a: { b: "c" } }` is in the
spec's normalized shape (a string-keyed mapping of normalized values), yet
normalizing it replaces the nested mapping with the string
`"[object Object]"`, so the result differs from the input. -/
theorem normalize_not_noop_on_nested_mapping :
    isNormalizedFields
        [("a", .object (some objectDefaultToString) [("b", .str "c")])] = true ∧
    makeFirestoreCompatible
        [("a", .object (some objectDefaultToString) [("b", .str "c")])] ≠
      [("a", .object (some objectDefaultToString) [("b", .str "c")])] := by
  refine ⟨rfl, fun h => ?_⟩
  simp [makeFirestoreCompatible, normalizeEntry] at h

/-- C4, amended.  Normalization is a no-op exactly on the flat part of the
normalized shape: a normalized input whose member values are all primitives
or strings is returned unchanged; a normalized input with a nested mapping
member is altered (the nested mapping becomes its `toString` text, see the
counterexample). -/
theorem makeFirestoreCompatible_noop_on_flat_normalized
    (fields : List (String × JSValue))
    (h : ∀ kv ∈ fields, isPassThrough kv.2 = true) :
    isNormalizedFields fields = true ∧ makeFirestoreCompatible fields = fields := by
  induction fields with
  | nil => exact ⟨rfl, rfl⟩
  | cons kv rest ih =>
      obtain ⟨k, v⟩ := kv
      have hv : isPassThrough v = true := h (k, v) (by simp)
      have hrest := ih fun kv hkv => h kv (List.mem_cons_of_mem _ hkv)
      cases v <;>
        simp_all [isPassThrough, isNormalizedValue, isNormalizedFields,
          makeFirestoreCompatible, normalizeEntry]

/-- C4, witness: a flat normalized exiftool-style mapping is returned
unchanged. -/
theorem makeFirestoreCompatible_noop_on_flat_normalized_witness :
    (∀ kv ∈ [("Make", JSValue.str "Canon"), ("ISO", JSValue.num 100),
             ("Flash", JSValue.bool false), ("GPSInfo", JSValue.null)],
        isPassThrough kv.2 = true) ∧
    (isNormalizedFields
        [("Make", JSValue.str "Canon"), ("ISO", JSValue.num 100),
         ("Flash", JSValue.bool false), ("GPSInfo", JSValue.null)] = true ∧
     makeFirestoreCompatible
        [("Make", JSValue.str "Canon"), ("ISO", JSValue.num 100),
         ("Flash", JSValue.bool false), ("GPSInfo", JSValue.null)] =
        [("Make", JSValue.str "Canon"), ("ISO", JSValue.num 100),
         ("Flash", JSValue.bool false), ("GPSInfo", JSValue.null)]) :=
  ⟨by decide, makeFirestoreCompatible_noop_on_flat_normalized _ (by decide)⟩

/-! ## Handler lemmas -/

theorem cleanupStep_clears (b : Bool) (p : String) : (cleanupStep b p).2 = false := by
  cases b <;> simp [cleanupStep]

theorem finishRun_tempRemaining (fn : String) (t : TryResult) :
    (finishRun fn t).tempRemaining = [] := by
  simp [finishRun, remainingPaths, cleanupStep_clears]

theorem finishRun_exifEndCount (fn : String) (t : TryResult) :
    (finishRun fn t).exifEndCount = 1 := rfl

/-! ## Claim C5 — cleanup invariant -/

/-- An environment whose record store already holds every name. -/
def envRecordedAll : Env :=
  ⟨fun _ => true, true, true, true, true, true, true, true, true, true⟩

/-- C5, counterexample.  The claim states that after every invocation — the
`Skipped` outcome included — the extractor resource has been released
exactly once.  The `Skipped` return (line 61) happens before the
`try`/`finally` pair, so `exiftool.end()` (line 135) never runs on that
path: a skipped invocation releases the extractor zero times. -/
theorem skipped_run_releases_extractor_zero_times :
    (processImage envRecordedAll ⟨some "photos/sample.jpg"⟩).outcome = .skipped ∧
    (processImage envRecordedAll ⟨some "photos/sample.jpg"⟩).exifEndCount ≠ 1 := by
  constructor <;> decide

/-- C5, amended.  After every invocation no temp file created by that
invocation remains; the extractor resource is released exactly once on
every invocation that reaches the `try` block (valid name, successful
idempotency query, name not yet recorded — i.e. the `Processed`, `Rejected`
and in-`try` error outcomes), and zero times on the `InvalidEvent`,
`Skipped` and query-failure outcomes, all of which precede the `try` block
and create no temp files. -/
theorem processImage_cleanup_and_release (env : Env) (e : Event) :
    (processImage env e).tempRemaining = [] ∧
    (processImage env e).exifEndCount =
      (if entersProcessing env e = true then 1 else 0) := by
  cases hfn : fileNameOf e with
  | none => simp [processImage, entersProcessing, hfn]
  | some fn =>
      by_cases hq : env.queryOk = true
      · by_cases hr : env.recorded fn = true
        · simp [processImage, entersProcessing, hfn, hq, hr]
        · simp [processImage, entersProcessing, hfn, hq, hr,
            finishRun_tempRemaining, finishRun_exifEndCount]
      · simp [processImage, entersProcessing, hfn, hq]

/-! ## Claim C6 — skipped runs have no side effects -/

/-- C6.  A present, non-empty name whose record already exists (and whose
idempotency query succeeds) yields the `Skipped` outcome, and the trace is
the idempotency query alone: no download, no upload, no probe or resize, no
extractor read, no insert. -/
theorem processImage_skipped_no_side_effects (env : Env) (e : Event) (fn : String)
    (hname : e.name = some fn) (hne : fn ≠ "")
    (hq : env.queryOk = true) (hr : env.recorded fn = true) :
    (processImage env e).outcome = .skipped ∧
    (processImage env e).calls = [Call.queryImageLogs fn] := by
  simp [processImage, fileNameOf, hname, hne, hq, hr]

/-- C6, witness: a concrete already-recorded name. -/
theorem processImage_skipped_no_side_effects_witness :
    (⟨some "photos/dup.jpg"⟩ : Event).name = some "photos/dup.jpg" ∧
    "photos/dup.jpg" ≠ "" ∧ envRecordedAll.queryOk = true ∧
    envRecordedAll.recorded "photos/dup.jpg" = true ∧
    ((processImage envRecordedAll ⟨some "photos/dup.jpg"⟩).outcome = .skipped ∧
     (processImage envRecordedAll ⟨some "photos/dup.jpg"⟩).calls =
       [Call.queryImageLogs "photos/dup.jpg"]) :=
  ⟨rfl, by decide, rfl, rfl,
   processImage_skipped_no_side_effects envRecordedAll ⟨some "photos/dup.jpg"⟩
     "photos/dup.jpg" rfl (by decide) rfl rfl⟩

/-! ## Claim C7 — unsupported extension is rejected after the download -/

/-- C7.  A present, non-empty, unrecorded name whose suffix is outside
jpg/jpeg/png/gif (case-insensitively), with a successful download, yields
the `Rejected` outcome — not an error — and the trace is exactly the query,
the completed download, and the cleanup of the downloaded temp file: no
resize or probe, no extractor read, no upload, no insert. -/
theorem processImage_rejected_only_download (env : Env) (e : Event) (fn : String)
    (hname : e.name = some fn) (hne : fn ≠ "")
    (hq : env.queryOk = true) (hr : env.recorded fn = false)
    (hd : env.downloadOk = true) (hm : extMatches fn = false) :
    (processImage env e).outcome = .rejected ∧
    (processImage env e).calls =
      [Call.queryImageLogs fn,
       Call.download SOURCE_BUCKET (normalizedFilePathOf fn) (tempFilePathOf fn),
       Call.unlink (tempFilePathOf fn), Call.exifEnd] := by
  simp [processImage, fileNameOf, hname, hne, hq, hr, runTry, hd, hm,
    finishRun, cleanupStep]

/-- C7, witness: the spec's `"notes/readme.txt"` scenario. -/
theorem processImage_rejected_only_download_witness :
    (⟨some "notes/readme.txt"⟩ : Event).name = some "notes/readme.txt" ∧
    "notes/readme.txt" ≠ "" ∧ envAllOk.queryOk = true ∧
    envAllOk.recorded "notes/readme.txt" = false ∧ envAllOk.downloadOk = true ∧
    extMatches "notes/readme.txt" = false ∧
    ((processImage envAllOk ⟨some "notes/readme.txt"⟩).outcome = .rejected ∧
     (processImage envAllOk ⟨some "notes/readme.txt"⟩).calls =
       [Call.queryImageLogs "notes/readme.txt",
        Call.download SOURCE_BUCKET (normalizedFilePathOf "notes/readme.txt")
          (tempFilePathOf "notes/readme.txt"),
        Call.unlink (tempFilePathOf "notes/readme.txt"), Call.exifEnd]) :=
  ⟨rfl, by decide, rfl, rfl, rfl, by decide,
   processImage_rejected_only_download envAllOk ⟨some "notes/readme.txt"⟩
     "notes/readme.txt" rfl (by decide) rfl rfl rfl (by decide)⟩

/-! ## Claim C9 — invalid events make no collaborator calls -/

/-- C9.  An absent or empty name throws (`InvalidEvent`) before any
collaborator is touched: the trace is empty, no temp file exists, and the
extractor was never released because it was never involved. -/
theorem processImage_invalid_event_no_calls (env : Env) (e : Event)
    (h : e.name = none ∨ e.name = some "") :
    (processImage env e).outcome = .invalidEvent ∧
    (processImage env e).calls = [] ∧
    (processImage env e).tempRemaining = [] := by
  rcases h with h | h <;> simp [processImage, fileNameOf, h]

/-- C9, witness: the name property is absent. -/
theorem processImage_invalid_event_no_calls_witness :
    ((⟨none⟩ : Event).name = none ∨ (⟨none⟩ : Event).name = some "") ∧
    ((processImage envAllOk ⟨none⟩).outcome = .invalidEvent ∧
     (processImage envAllOk ⟨none⟩).calls = [] ∧
     (processImage envAllOk ⟨none⟩).tempRemaining = []) :=
  ⟨Or.inl rfl, processImage_invalid_event_no_calls envAllOk ⟨none⟩ (Or.inl rfl)⟩

/-! ## Claim C8 — the record insert is last -/

/-- C8.  If a `image_logs` insert appears in an invocation's trace, then
every step up to and including both uploads succeeded — equivalently,
whenever the download, probe, resize, extractor read, either upload or the
jpeg reformat fails, no record (not even a partial one) is ever written —
and the insert occurs positionally after the two upload calls. -/
theorem processImage_insert_only_after_uploads (env : Env) (e : Event) (k : String)
    (h : Call.addImageLog k ∈ (processImage env e).calls) :
    env.downloadOk = true ∧ env.metadataOk = true ∧ env.resizeOk = true ∧
    env.exifReadOk = true ∧ env.thumbUploadOk = true ∧ env.toFormatOk = true ∧
    env.processedUploadOk = true ∧
    insertAfterTwoUploads (processImage env e).calls 0 = true := by
  cases hfn : fileNameOf e with
  | none => simp [processImage, hfn] at h
  | some fn =>
      by_cases hq : env.queryOk = true
      · by_cases hr : env.recorded fn = true
        · simp [processImage, hfn, hq, hr] at h
        · by_cases hd : env.downloadOk = true
          · by_cases hm : extMatches fn = true
            · by_cases hmet : env.metadataOk = true
              · by_cases hrz : env.resizeOk = true
                · by_cases hex : env.exifReadOk = true
                  · by_cases htu : env.thumbUploadOk = true
                    · by_cases htf : env.toFormatOk = true
                      · by_cases hpu : env.processedUploadOk = true
                        · by_cases hins : env.insertOk = true <;>
                            simp [processImage, hfn, hq, hr, runTry, hd, hm, hmet,
                              hrz, hex, htu, htf, hpu, hins, finishRun, cleanupStep,
                              insertAfterTwoUploads]
                        · simp [processImage, hfn, hq, hr, runTry, hd, hm, hmet,
                            hrz, hex, htu, htf, hpu, finishRun, cleanupStep] at h
                      · simp [processImage, hfn, hq, hr, runTry, hd, hm, hmet,
                          hrz, hex, htu, htf, finishRun, cleanupStep] at h
                    · simp [processImage, hfn, hq, hr, runTry, hd, hm, hmet,
                        hrz, hex, htu, finishRun, cleanupStep] at h
                  · simp [processImage, hfn, hq, hr, runTry, hd, hm, hmet,
                      hrz, hex, finishRun, cleanupStep] at h
                · simp [processImage, hfn, hq, hr, runTry, hd, hm, hmet, hrz,
                    finishRun, cleanupStep] at h
              · simp [processImage, hfn, hq, hr, runTry, hd, hm, hmet,
                  finishRun, cleanupStep] at h
            · simp [processImage, hfn, hq, hr, runTry, hd, hm,
                finishRun, cleanupStep] at h
          · simp [processImage, hfn, hq, hr, runTry, hd,
              finishRun, cleanupStep] at h
      · simp [processImage, hfn, hq] at h

/-- C8, witness: in a fully successful run the insert is present and the
conclusion holds. -/
theorem processImage_insert_only_after_uploads_witness :
    Call.addImageLog "photos/sample.jpg" ∈
      (processImage envAllOk ⟨some "photos/sample.jpg"⟩).calls ∧
    (envAllOk.downloadOk = true ∧ envAllOk.metadataOk = true ∧
     envAllOk.resizeOk = true ∧ envAllOk.exifReadOk = true ∧
     envAllOk.thumbUploadOk = true ∧ envAllOk.toFormatOk = true ∧
     envAllOk.processedUploadOk = true ∧
     insertAfterTwoUploads
       (processImage envAllOk ⟨some "photos/sample.jpg"⟩).calls 0 = true) :=
  ⟨by decide,
   processImage_insert_only_after_uploads envAllOk ⟨some "photos/sample.jpg"⟩
     "photos/sample.jpg" (by decide)⟩

/-! ## Claim C10 — basename collision across distinct keys -/

/-- C10.  Two distinct keys with the same basename produce identical local
temp paths and identical derived destination names, so successfully
processing both sends the second key's thumbnail and processed copy to the
very destinations the first key's artifacts were written to (the second
write lands on top of the first). -/
theorem processImage_basename_collision_overwrites
    (env : Env) (k1 k2 : String)
    (_hdist : k1 ≠ k2) (hb : basenameOf k1 = basenameOf k2)
    (h1 : k1 ≠ "") (h2 : k2 ≠ "")
    (hm1 : extMatches k1 = true) (hm2 : extMatches k2 = true)
    (hq : env.queryOk = true)
    (hr1 : env.recorded k1 = false) (hr2 : env.recorded k2 = false)
    (hd : env.downloadOk = true) (hmet : env.metadataOk = true)
    (hrz : env.resizeOk = true) (hex : env.exifReadOk = true)
    (htu : env.thumbUploadOk = true) (htf : env.toFormatOk = true)
    (hpu : env.processedUploadOk = true) (hins : env.insertOk = true) :
    tempFilePathOf k1 = tempFilePathOf k2 ∧
    thumbnailPathOf k1 = thumbnailPathOf k2 ∧
    processedImagePathOf k1 = processedImagePathOf k2 ∧
    thumbnailDestOf k1 = thumbnailDestOf k2 ∧
    processedDestOf k1 = processedDestOf k2 ∧
    (processImage env ⟨some k1⟩).outcome = .processed ∧
    (processImage env ⟨some k2⟩).outcome = .processed ∧
    uploadDestinations (processImage env ⟨some k1⟩).calls =
      [thumbnailDestOf k1, processedDestOf k1] ∧
    uploadDestinations (processImage env ⟨some k2⟩).calls =
      [thumbnailDestOf k1, processedDestOf k1] := by
  refine ⟨by simp [tempFilePathOf, hb], by simp [thumbnailPathOf, hb],
    by simp [processedImagePathOf, hb], by simp [thumbnailDestOf, hb],
    by simp [processedDestOf, hb], ?_, ?_, ?_, ?_⟩ <;>
    simp [processImage, fileNameOf, h1, h2, hq, hr1, hr2, runTry, hd, hm1, hm2,
      hmet, hrz, hex, htu, htf, hpu, hins, finishRun, cleanupStep,
      uploadDestinations, thumbnailDestOf, processedDestOf, hb]

/-- C10, witness: the keys `"a/x.jpg"` and `"b/x.jpg"`. -/
theorem processImage_basename_collision_overwrites_witness :
    ("a/x.jpg" : String) ≠ "b/x.jpg" ∧
    basenameOf "a/x.jpg" = basenameOf "b/x.jpg" ∧
    (tempFilePathOf "a/x.jpg" = tempFilePathOf "b/x.jpg" ∧
     thumbnailPathOf "a/x.jpg" = thumbnailPathOf "b/x.jpg" ∧
     processedImagePathOf "a/x.jpg" = processedImagePathOf "b/x.jpg" ∧
     thumbnailDestOf "a/x.jpg" = thumbnailDestOf "b/x.jpg" ∧
     processedDestOf "a/x.jpg" = processedDestOf "b/x.jpg" ∧
     (processImage envAllOk ⟨some "a/x.jpg"⟩).outcome = .processed ∧
     (processImage envAllOk ⟨some "b/x.jpg"⟩).outcome = .processed ∧
     uploadDestinations (processImage envAllOk ⟨some "a/x.jpg"⟩).calls =
       [thumbnailDestOf "a/x.jpg", processedDestOf "a/x.jpg"] ∧
     uploadDestinations (processImage envAllOk ⟨some "b/x.jpg"⟩).calls =
       [thumbnailDestOf "a/x.jpg", processedDestOf "a/x.jpg"]) :=
  ⟨by decide, by decide,
   processImage_basename_collision_overwrites envAllOk "a/x.jpg" "b/x.jpg"
     (by decide) (by decide) (by decide) (by decide) (by decide) (by decide)
     rfl rfl rfl rfl rfl rfl rfl rfl rfl rfl rfl⟩
